import Mathlib

/-!
Verification development for the stock-market analyser application
(single source file `app.py`).

The embedding models:
  - `format_large_number` (number formatting with tiered magnitude suffixes);
  - `get_stock_data` (fetch wrapper classifying empty and failed provider calls);
  - the data-state effect of `plot_stock_chart` (pandas rolling means assigned
    as new columns of the caller's DataFrame);
  - the `Analyze Stock` button handler's rendering flow.

Modelling conventions:
  - Python numbers are modelled as exact rationals (`ℚ`); Python float
    formatting with two decimals (`:.2f`, `:,.2f`) is modelled as exact
    rational rounding to two decimal places with ties to even, which agrees
    with the source at every decimal value the claims evaluate;
  - dynamically typed inputs are modelled by the inductive `PyVal`
    (absent value, number, string);
  - the external provider (`yf.download`, `yf.Ticker(...).info`) is a
    parameter: either a returned table / info mapping or a raised exception
    carrying a message;
  - a pandas DataFrame is modelled as parallel columns; in-place column
    assignment is modelled by explicit state passing (the function returns
    the updated frame the caller's variable then denotes).
-/

namespace StockAnalyzer

/-- A dynamically typed Python value as passed to `format_large_number`:
`None`, a number (int or float, modelled exactly as a rational), or a
non-numeric value such as a string. -/
inductive PyVal where
  | none : PyVal
  | num : ℚ → PyVal
  | str : String → PyVal
deriving DecidableEq

/-- Round the fraction `a / b` (with `b > 0`) to the nearest integer, ties to
even: the rounding used by Python float formatting. `f` is the floor of the
fraction and `r` its nonnegative remainder, so the fraction lies strictly
between `f` and `f + 1` unless `r = 0`, and `2 * r` against `b` compares the
fractional part against one half. -/
def roundHalfEvenFrac (a b : ℤ) : ℤ :=
  let f := Int.fdiv a b
  let r := a - f * b
  if 2 * r < b then f
  else if b < 2 * r then f + 1
  else if f % 2 = 0 then f else f + 1

/-- Round a rational to an integer count of hundredths (cents), ties to even:
the value Python renders when formatting `q` with two decimals. -/
def round2 (q : ℚ) : ℤ :=
  roundHalfEvenFrac (q.num * 100) (q.den : ℤ)

/-- Two-digit zero-padded rendering of a natural number below 100
(the fractional part of a two-decimal format). -/
def pad2 (n : Nat) : String :=
  if n < 10 then "0" ++ toString n else toString n

/-- Three-digit zero-padded rendering of a natural number below 1000
(a non-leading thousands group). -/
def pad3 (n : Nat) : String :=
  if n < 10 then "00" ++ toString n
  else if n < 100 then "0" ++ toString n
  else toString n

/-- Fuel-driven structural recursion for `commaGroup`: each step strips the
last three decimal digits, and a fuel of `n` more than covers the number of
thousands groups of `n`. -/
def commaGroupAux : Nat → Nat → String
  | 0, n => toString n
  | fuel + 1, n =>
      if n < 1000 then toString n
      else commaGroupAux fuel (n / 1000) ++ "," ++ pad3 (n % 1000)

/-- Decimal rendering of a natural number with thousands separators,
as Python's `,` format option produces. -/
def commaGroup (n : Nat) : String :=
  commaGroupAux n n

/-- Python `f"{q:.2f}"`: fixed-point rendering with exactly two decimals,
modelled over exact rationals. -/
def fmt2 (q : ℚ) : String :=
  let c : ℤ := round2 q
  let sgn := if c < 0 then "-" else ""
  let n := c.natAbs
  sgn ++ toString (n / 100) ++ "." ++ pad2 (n % 100)

/-- Python `f"{q:,.2f}"`: as `fmt2` but with the integer part
thousands-separated. -/
def fmtComma2 (q : ℚ) : String :=
  let c : ℤ := round2 q
  let sgn := if c < 0 then "-" else ""
  let n := c.natAbs
  sgn ++ commaGroup (n / 100) ++ "." ++ pad2 (n % 100)

/-- Embedding of `format_large_number` (app.py lines 65-77): `None` or a
non-numeric argument yields the literal `N/A`; otherwise strictly-greater
tier checks against 10^12, 10^9 and 10^6 select the trillions, billions or
millions rendering, and everything else is thousands-separated with two
decimals. Totality of this function models that the source never raises. -/
def format_large_number : PyVal → String
  | PyVal.none => "N/A"
  | PyVal.str _ => "N/A"
  | PyVal.num q =>
      if 1000000000000 < q then "$" ++ fmt2 (q / 1000000000000) ++ " T"
      else if 1000000000 < q then "$" ++ fmt2 (q / 1000000000) ++ " B"
      else if 1000000 < q then "$" ++ fmt2 (q / 1000000) ++ " M"
      else "$" ++ fmtComma2 q

/-- A pandas DataFrame of daily OHLCV records as the app uses it: parallel
columns, one entry per trading day, plus the two moving-average columns the
indicator step may assign (`Option.none` while the column is absent). Close
prices are the only column the indicator step reads. -/
structure DataFrame where
  opens : List ℚ
  highs : List ℚ
  lows : List ℚ
  closes : List ℚ
  volumes : List ℤ
  ma50 : Option (List (Option ℚ)) := Option.none
  ma200 : Option (List (Option ℚ)) := Option.none
deriving DecidableEq

/-- Pandas `df.empty`: the frame has no rows. -/
def DataFrame.empty (df : DataFrame) : Bool :=
  df.closes.isEmpty

/-- Pandas `series.rolling(window=W).mean()` with the default `min_periods`:
position `i` holds the mean of the `W` values ending at `i` once `W` values
are available, and is missing (`NaN`, modelled as `Option.none`) before
that. -/
def rolling_mean (W : Nat) (xs : List ℚ) : List (Option ℚ) :=
  (List.range xs.length).map (fun i =>
    if W ≤ i + 1 then some (((xs.take (i + 1)).drop (i + 1 - W)).sum / (W : ℚ))
    else Option.none)

/-- The data-state effect of `plot_stock_chart` (app.py lines 18-63): the
function assigns `data['MA50']` and `data['MA200']` as rolling means of the
close column, mutating the caller's DataFrame; mutation is modelled by
returning the updated frame the caller's variable denotes afterwards. The
returned Plotly figure is a rendering artifact and is not modelled. -/
def plot_stock_chart_data (data : DataFrame) : DataFrame :=
  let d1 := { data with ma50 := some (rolling_mean 50 data.closes) }
  { d1 with ma200 := some (rolling_mean 200 d1.closes) }

/-- Outcome of the provider call `yf.download(ticker, start, end)`: either a
returned DataFrame or a raised exception carrying its message. -/
inductive ProviderResult where
  | ok : DataFrame → ProviderResult
  | exn : String → ProviderResult

/-- Embedding of `get_stock_data` (app.py lines 6-16), parameterised by the
provider call's outcome: an exception is caught and converted to an error
message, an empty frame becomes a no-data error message naming the ticker,
and a non-empty frame is returned with no error. Totality models that the
function never lets the exception propagate. -/
def get_stock_data (ticker : String) (download : ProviderResult) :
    Option DataFrame × Option String :=
  match download with
  | ProviderResult.exn e => (Option.none, some ("An error occurred: " ++ e))
  | ProviderResult.ok data =>
      if data.empty then
        (Option.none,
         some ("No data found for ticker \x27" ++ ticker ++
           "\x27. It might be delisted or incorrect."))
      else (some data, Option.none)

/-- The sparse `yf.Ticker(ticker).info` mapping, restricted to the numeric
fields the metrics panel reads; each may be absent. -/
structure StockInfo where
  currentPrice : Option ℚ := Option.none
  marketCap : Option ℚ := Option.none
  trailingPE : Option ℚ := Option.none
  dividendYield : Option ℚ := Option.none
  fiftyTwoWeekHigh : Option ℚ := Option.none
  fiftyTwoWeekLow : Option ℚ := Option.none

/-- Outcome of the profile-metadata call `yf.Ticker(ticker).info`: either the
info mapping or a raised exception carrying its message. -/
inductive InfoResult where
  | ok : StockInfo → InfoResult
  | exn : String → InfoResult

/-- The Market Cap metric (app.py lines 150-153): `stock_info.get('marketCap')`
reads the field with no default, so an absent field passes Python `None` to
`format_large_number`. -/
def marketCapMetric (info : StockInfo) : String :=
  format_large_number
    (match info.marketCap with
     | some q => PyVal.num q
     | Option.none => PyVal.none)

/-- The Dividend Yield metric (app.py lines 160-163):
`stock_info.get('dividendYield', 0)` reads the field with a default of `0`,
multiplies by 100 and formats with two decimals and a percent sign. -/
def dividendYieldMetric (info : StockInfo) : String :=
  fmt2 (info.dividendYield.getD 0 * 100) ++ "%"

/-- One rendered block of the `Analyze Stock` flow. The chart, info panel and
raw-data table are opaque markers: their payloads are rendering artifacts of
the Plotly/Streamlit collaborators and are not modelled. -/
inductive Output where
  | errorMsg : String → Output
  | successMsg : String → Output
  | chart : Output
  | infoPanel : Output
  | warnMsg : String → Output
  | rawTable : Output
deriving DecidableEq

/-- Embedding of the `Analyze Stock` button handler for a non-empty ticker
(app.py lines 98-183): the fetch result is destructured into `(data, error)`;
an error renders only the error message, otherwise the success banner and the
chart render, then the company-information section (the info panel when the
profile call succeeds, an error message plus a warning note when it raises),
and finally the raw-data table of the last ten rows. -/
def analyze_handler (ticker : String) (download : ProviderResult)
    (infoRes : InfoResult) : List Output :=
  let r := get_stock_data ticker download
  match r.2 with
  | some err => [Output.errorMsg err]
  | Option.none =>
      [Output.successMsg ("Displaying data for " ++ ticker), Output.chart] ++
      (match infoRes with
       | InfoResult.ok _ => [Output.infoPanel]
       | InfoResult.exn e =>
           [Output.errorMsg ("Could not fetch stock info: " ++ e),
            Output.warnMsg
              "Note: The yfinance .info object can be unreliable. Some data may be missing."]) ++
      [Output.rawTable]

example : format_large_number (PyVal.num 1000000000) = "$1000.00 M" := by
  norm_num [format_large_number, fmt2, round2]
  decide
example : format_large_number (PyVal.num 1500000000000) = "$1.50 T" := by
  norm_num [format_large_number, fmt2, round2]
  decide
example : format_large_number (PyVal.num 999) = "$999.00" := by
  norm_num [format_large_number, fmtComma2, round2]
  decide
example : format_large_number (PyVal.num 1234567) = "$1.23 M" := by
  norm_num [format_large_number, fmt2, round2]
  decide
example : format_large_number (PyVal.num 123456) = "$123,456.00" := by
  norm_num [format_large_number, fmtComma2, round2]
  decide

lemma rolling_mean_length (W : Nat) (xs : List ℚ) :
    (rolling_mean W xs).length = xs.length := by
  simp [rolling_mean]

lemma rolling_mean_getElem (W : Nat) (xs : List ℚ) (i : Nat) (h : i < xs.length) :
    (rolling_mean W xs)[i]? =
      some (if W ≤ i + 1 then
          some (((xs.take (i + 1)).drop (i + 1 - W)).sum / (W : ℚ))
        else Option.none) := by
  simp [rolling_mean, h]

lemma countP_range_threshold (W n : Nat) :
    (List.range n).countP (fun i => decide (W ≤ i + 1)) = n - (W - 1) := by
  induction n with
  | zero => simp
  | succ n ih =>
      rw [List.range_succ, List.countP_append, ih]
      by_cases h : W ≤ n + 1
      · simp [List.countP_cons, h]
        omega
      · simp [List.countP_cons, h]
        omega

lemma rolling_mean_count (W : Nat) (xs : List ℚ) :
    (rolling_mean W xs).countP Option.isSome = xs.length - (W - 1) := by
  rw [rolling_mean, List.countP_map]
  have hfun :
      (Option.isSome ∘ fun i =>
        if W ≤ i + 1 then
          some (((xs.take (i + 1)).drop (i + 1 - W)).sum / (W : ℚ))
        else Option.none) = fun i => decide (W ≤ i + 1) := by
    funext i
    by_cases h : W ≤ i + 1 <;> simp [h]
  rw [hfun, countP_range_threshold]

lemma sum_eq_sum_range_getD (l : List ℚ) :
    l.sum = ∑ j ∈ Finset.range l.length, l.getD j 0 := by
  induction l with
  | nil => simp
  | cons a t ih =>
      rw [List.sum_cons, List.length_cons, Finset.sum_range_succ', ih]
      simp only [List.getD_cons_succ, List.getD_cons_zero]
      ring

lemma trailing_sum (xs : List ℚ) (W i : Nat) (hW : W ≤ i + 1) (hi : i < xs.length) :
    ((xs.take (i + 1)).drop (i + 1 - W)).sum =
      ∑ j ∈ Finset.range W, xs.getD (i + 1 - W + j) 0 := by
  have hlen : ((xs.take (i + 1)).drop (i + 1 - W)).length = W := by
    simp only [List.length_drop, List.length_take]
    omega
  rw [sum_eq_sum_range_getD, hlen]
  refine Finset.sum_congr rfl fun j hj => ?_
  have hjW : j < W := Finset.mem_range.mp hj
  rw [List.getD_eq_getElem?_getD, List.getD_eq_getElem?_getD, List.getElem?_drop,
    List.getElem?_take]
  rw [if_pos (by omega)]

/-- C1: for a series with at least one record and a window `W` with
`1 ≤ W ≤ length` (the indicator step uses `W = 50` and `W = 200`), the
rolling-mean column of the closes has exactly `length - W + 1` defined
values, the value at each position `i ≥ W - 1` is the arithmetic mean of the
trailing `W` closes ending at `i`, and the first `W - 1` positions are
undefined. -/
theorem c1_rolling_mean_properties (W : Nat) (xs : List ℚ)
    (hW : 1 ≤ W) (hlen : W ≤ xs.length) :
    (rolling_mean W xs).countP Option.isSome = xs.length - W + 1 ∧
    (∀ i, W - 1 ≤ i → i < xs.length →
      (rolling_mean W xs)[i]? =
        some (some ((∑ j ∈ Finset.range W, xs.getD (i + 1 - W + j) 0) / (W : ℚ)))) ∧
    (∀ i, i < W - 1 → (rolling_mean W xs)[i]? = some Option.none) := by
  refine ⟨?_, ?_, ?_⟩
  · rw [rolling_mean_count]
    omega
  · intro i h1 h2
    rw [rolling_mean_getElem W xs i h2, if_pos (by omega : W ≤ i + 1),
      trailing_sum xs W i (by omega) h2]
  · intro i hi
    have h2 : i < xs.length := by omega
    rw [rolling_mean_getElem W xs i h2, if_neg (by omega : ¬ W ≤ i + 1)]

/-- Witness for C1: the rolling mean of window 2 over the three closes
`[1, 2, 3]` has `3 - 2 + 1` defined values, position 2 carries the mean of
the last two closes, and position 0 is undefined. -/
theorem c1_witness :
    (rolling_mean 2 [(1 : ℚ), 2, 3]).countP Option.isSome = 3 - 2 + 1 ∧
    (rolling_mean 2 [(1 : ℚ), 2, 3])[2]? =
      some (some ((∑ j ∈ Finset.range 2, ([(1 : ℚ), 2, 3]).getD (2 + 1 - 2 + j) 0) /
        (2 : ℚ))) ∧
    (rolling_mean 2 [(1 : ℚ), 2, 3])[0]? = some Option.none := by
  obtain ⟨h1, h2, h3⟩ :=
    c1_rolling_mean_properties 2 [(1 : ℚ), 2, 3] (by omega) (by simp)
  exact ⟨h1, h2 2 (by omega) (by simp), h3 0 (by omega)⟩

/-- A frame with a single OHLCV record and no indicator columns, as a fetch
returns it. -/
def oneRowFrame : DataFrame :=
  { opens := [1], highs := [1], lows := [1], closes := [1], volumes := [1] }

/-- A frame with zero records: what the provider returns for an unknown or
delisted ticker. -/
def emptyFrame : DataFrame :=
  { opens := [], highs := [], lows := [], closes := [], volumes := [] }

/-- C2 counterexample: the indicator step is not pure with respect to the
caller's table — on a one-row series the caller's frame differs after the
call (it has gained an `MA50` column). -/
theorem c2_counterexample : plot_stock_chart_data oneRowFrame ≠ oneRowFrame := by
  intro hEq
  have h50 := congrArg DataFrame.ma50 hEq
  simp [plot_stock_chart_data, oneRowFrame] at h50

/-- C2 (amended): the indicator step mutates the caller's table in place,
leaving every OHLCV column unchanged but adding an `MA50` column equal to the
window-50 rolling mean of the closes and an `MA200` column equal to the
window-200 rolling mean of the closes. -/
theorem c2_amended_effect (data : DataFrame) :
    (plot_stock_chart_data data).opens = data.opens ∧
    (plot_stock_chart_data data).highs = data.highs ∧
    (plot_stock_chart_data data).lows = data.lows ∧
    (plot_stock_chart_data data).closes = data.closes ∧
    (plot_stock_chart_data data).volumes = data.volumes ∧
    (plot_stock_chart_data data).ma50 = some (rolling_mean 50 data.closes) ∧
    (plot_stock_chart_data data).ma200 = some (rolling_mean 200 data.closes) := by
  simp [plot_stock_chart_data]

/-- C3 counterexample: applied to exactly one billion, `format_large_number`
does not return the billions rendering. -/
theorem c3_counterexample : format_large_number (PyVal.num 1000000000) ≠ "$1.00 B" := by
  norm_num [format_large_number, fmt2, round2]
  decide

/-- C3 (amended): applied to exactly 1,000,000,000, `format_large_number`
falls through the strict billions threshold to the millions tier and returns
the string `$1000.00 M`. -/
theorem c3_amended_exact_billion :
    format_large_number (PyVal.num 1000000000) = "$1000.00 M" := by
  norm_num [format_large_number, fmt2, round2]
  decide

/-- Modelled from the spec (section 4.3 NumberFormatter): tiered magnitude
formatting with strict greater-than thresholds, stated in the spec's words to
be compared with the source's `format_large_number`. -/
def formatCurrency_spec (v : ℚ) : String :=
  if v > 10 ^ 12 then "$" ++ fmt2 (v / 10 ^ 12) ++ " T"
  else if v > 10 ^ 9 then "$" ++ fmt2 (v / 10 ^ 9) ++ " B"
  else if v > 10 ^ 6 then "$" ++ fmt2 (v / 10 ^ 6) ++ " M"
  else "$" ++ fmtComma2 v

/-- C4: on every numeric input `format_large_number` agrees with the spec's
strictly-greater-than tiered formatting rule, and in particular it renders
1,500,000,000,000 as `$1.50 T` and 999 as `$999.00`. -/
theorem c4_tiered_formatting :
    (∀ v : ℚ, format_large_number (PyVal.num v) = formatCurrency_spec v) ∧
    format_large_number (PyVal.num 1500000000000) = "$1.50 T" ∧
    format_large_number (PyVal.num 999) = "$999.00" := by
  refine ⟨fun v => ?_, ?_, ?_⟩
  · norm_num [format_large_number, formatCurrency_spec]
  · norm_num [format_large_number, fmt2, round2]
    decide
  · norm_num [format_large_number, fmtComma2, round2]
    decide

/-- C5: `format_large_number` is total (so it never raises) and returns the
literal `N/A` on the absent input `None` and on every non-numeric input,
among them the string `abc`. -/
theorem c5_non_numeric_na :
    format_large_number PyVal.none = "N/A" ∧
    format_large_number (PyVal.str "abc") = "N/A" ∧
    ∀ s, format_large_number (PyVal.str s) = "N/A" :=
  ⟨rfl, rfl, fun _ => rfl⟩

/-- C6: when the provider call succeeds with zero records, `get_stock_data`
returns no data together with an error message that carries the ticker, and
no successful return of `get_stock_data` ever carries an empty frame. -/
theorem c6_empty_result (ticker : String) (df : DataFrame) (h : df.empty = true) :
    (get_stock_data ticker (ProviderResult.ok df)).1 = Option.none ∧
    (∃ pre post,
      (get_stock_data ticker (ProviderResult.ok df)).2 = some (pre ++ ticker ++ post)) ∧
    (∀ download data, (get_stock_data ticker download).1 = some data →
      data.empty = false) := by
  refine ⟨by simp [get_stock_data, h], ?_, ?_⟩
  · have hmsg : (get_stock_data ticker (ProviderResult.ok df)).2 =
        some ("No data found for ticker \x27" ++ ticker ++
          "\x27. It might be delisted or incorrect.") := by
      simp [get_stock_data, h]
    exact ⟨"No data found for ticker \x27",
      "\x27. It might be delisted or incorrect.", hmsg⟩
  · intro download data hd
    cases download with
    | exn e => simp [get_stock_data] at hd
    | ok d =>
        by_cases hde : d.empty = true
        · simp [get_stock_data, hde] at hd
        · simp [get_stock_data, hde] at hd
          subst hd
          simpa using hde

/-- Witness for C6: fetching the ticker `AAPL` when the provider returns a
frame with zero records yields no data and an error message carrying the
ticker. -/
theorem c6_witness :
    (get_stock_data "AAPL" (ProviderResult.ok emptyFrame)).1 = Option.none ∧
    (∃ pre post,
      (get_stock_data "AAPL" (ProviderResult.ok emptyFrame)).2 =
        some (pre ++ "AAPL" ++ post)) ∧
    (∀ download data, (get_stock_data "AAPL" download).1 = some data →
      data.empty = false) :=
  c6_empty_result "AAPL" emptyFrame rfl

/-- C7: when the provider call raises, `get_stock_data` catches the exception
(it is total, so nothing propagates) and returns no data together with an
error message that preserves the original provider message. -/
theorem c7_provider_exception (ticker msg : String) :
    get_stock_data ticker (ProviderResult.exn msg) =
      (Option.none, some ("An error occurred: " ++ msg)) ∧
    ∃ pre post, ("An error occurred: " ++ msg : String) = pre ++ msg ++ post :=
  ⟨rfl, "An error occurred: ", "", by simp⟩

/-- C8: in the per-request flow, a failed OHLCV fetch renders only the error
message (no chart at all), while a successful fetch with a failed
profile-metadata call still renders the chart and the raw-data table, the
info panel being replaced by an error message and a warning note. -/
theorem c8_render_paths (ticker : String) (download : ProviderResult)
    (infoRes : InfoResult) :
    (∀ err, (get_stock_data ticker download).2 = some err →
      analyze_handler ticker download infoRes = [Output.errorMsg err]) ∧
    ((get_stock_data ticker download).2 = Option.none →
      ∀ e, infoRes = InfoResult.exn e →
        Output.chart ∈ analyze_handler ticker download infoRes ∧
        Output.rawTable ∈ analyze_handler ticker download infoRes ∧
        Output.errorMsg ("Could not fetch stock info: " ++ e) ∈
          analyze_handler ticker download infoRes ∧
        Output.infoPanel ∉ analyze_handler ticker download infoRes) := by
  constructor
  · intro err herr
    simp [analyze_handler, herr]
  · intro hok e he
    subst he
    simp [analyze_handler, hok]

/-- C9 counterexample: with an absent `marketCap` field the Market Cap metric
renders `N/A`, which differs from the rendering of the number 0, so the
market-cap field is not read with a default of 0. -/
theorem c9_counterexample :
    marketCapMetric {} = "N/A" ∧
    format_large_number (PyVal.num 0) = "$0.00" ∧
    ("N/A" : String) ≠ "$0.00" := by
  refine ⟨rfl, ?_, by decide⟩
  norm_num [format_large_number, fmtComma2, round2]
  decide

/-- C9 (amended): only the dividend-yield field is read with a default of 0
(an absent dividend yield is displayed as `0.00%`); the market-cap field is
read with no default, so an absent market cap reaches the formatter as the
absent value and is displayed as `N/A`. -/
theorem c9_amended_defaults (info : StockInfo)
    (hmc : info.marketCap = Option.none)
    (hdy : info.dividendYield = Option.none) :
    marketCapMetric info = "N/A" ∧ dividendYieldMetric info = "0.00%" := by
  constructor
  · simp [marketCapMetric, hmc, format_large_number]
  · simp only [dividendYieldMetric, hdy, Option.getD_none]
    norm_num [fmt2, round2]
    decide

/-- Witness for C9: on the info mapping with every field absent, the Market
Cap metric shows `N/A` and the Dividend Yield metric shows `0.00%`. -/
theorem c9_witness :
    marketCapMetric {} = "N/A" ∧ dividendYieldMetric {} = "0.00%" :=
  c9_amended_defaults {} rfl rfl

/-- C10: `get_stock_data` always returns a pair with exactly one component
present: either a non-empty frame and no error, or no frame and an error
message — never both and never neither. -/
theorem c10_result_invariant (ticker : String) (download : ProviderResult) :
    (∃ df, get_stock_data ticker download = (some df, Option.none) ∧
      df.empty = false) ∨
    (∃ msg, get_stock_data ticker download = (Option.none, some msg)) := by
  cases download with
  | exn e => exact Or.inr ⟨_, rfl⟩
  | ok df =>
      by_cases h : df.empty = true
      · exact Or.inr ⟨"No data found for ticker \x27" ++ ticker ++
          "\x27. It might be delisted or incorrect.", by simp [get_stock_data, h]⟩
      · exact Or.inl ⟨df, by simp [get_stock_data, h], by simpa using h⟩

end StockAnalyzer
